import Mathlib

/-!
Verification of the `MelfaRobot` control-state machine (src/src/MelfaRobot.py)
against its natural-language specification.

The transport (`tcp_client` with duck-typed `send`/`receive`) is modelled by an
oracle that decides, per transport call, whether the call succeeds and what
payload a successful `receive` returns.  A session value carries the robot's
fields (`joints`, `servo`, `com_ctrl`), a call counter indexing the oracle, and
a trace of the transport events observed so far.  Python exceptions are
modelled by `Except`: the error value is the session at the moment the
exception propagates, so partially applied mutations are preserved, exactly as
in Python where an exception aborts the method but keeps earlier assignments.
-/

/-- The opaque command constants of the external `MelfaCmd` catalog that
`MelfaRobot` sends (consumed opaquely, per the source imports). -/
inductive Cmd
  | COM_OPEN
  | COM_CLOSE
  | CNTL_ON
  | CNTL_OFF
  | SRV_ON
  | SRV_OFF
deriving DecidableEq

/-- Observable transport events: a successful `send` of a command, a successful
`receive` returning a payload, and the settle wait `sleep(MelfaCmd.SERVO_INIT_SEC)`
(a single call site with a fixed constant argument, hence one event). -/
inductive Event
  | send (c : Cmd)
  | recv (payload : List Nat)
  | sleepServo
deriving DecidableEq

/-- The fields `MelfaRobot.__init__` stores: `joints`, `servo`, `com_ctrl`
(the `tcp` field is the oracle, passed separately). -/
structure RobotState where
  joints : Finset String
  servo : Bool
  com_ctrl : Bool
deriving DecidableEq

/-- Duck-typing view of the `tcp_client` argument: whether it has the `send`
and `receive` attributes that `__init__` checks with `hasattr`. -/
structure TcpDuck where
  hasSend : Bool
  hasReceive : Bool
deriving DecidableEq

/-- The `TypeError`s `MelfaRobot.__init__` can raise: transport missing a
required method, or a non-positive axis count. -/
inductive InitError
  | badTcpClient
  | badAxisCount
deriving DecidableEq

/-- `set(['J' + str(i) for i in range(1, number_axes + 1)])` from `__init__`. -/
def jointsFor (number_axes : Int) : Finset String :=
  ((List.range number_axes.toNat).map (fun i => "J" ++ toString (i + 1))).toFinset

/-- `MelfaRobot.__init__(tcp_client, number_axes)`: validates the transport's
duck-typed capabilities, then the axis count, then stores the fields.  It
performs no transport call (it does not consult any oracle). -/
def MelfaRobot.init (tcp_client : TcpDuck) (number_axes : Int) :
    Except InitError RobotState :=
  if tcp_client.hasSend = false ∨ tcp_client.hasReceive = false then
    .error .badTcpClient
  else if ¬ number_axes > 0 then
    .error .badAxisCount
  else
    .ok { joints := jointsFor number_axes, servo := false, com_ctrl := false }

/-- Transport oracle: for the k-th transport call (counted across the session),
whether a `send` at that position succeeds, whether a `receive` at that
position succeeds, and the payload a successful `receive` returns. -/
structure Oracle where
  sendOk : Nat → Bool
  recvOk : Nat → Bool
  recvPayload : Nat → List Nat

/-- A live session: robot fields, transport-call counter, observed trace. -/
structure Sess where
  st : RobotState
  k : Nat
  tr : List Event
deriving DecidableEq

/-- Sequencing with Python exception semantics: if the first step raised, the
exception (carrying the session at that moment) propagates and the
continuation never runs. -/
def bindE (r : Except Sess Sess) (f : Sess → Except Sess Sess) : Except Sess Sess :=
  match r with
  | .ok s => f s
  | .error e => .error e

/-- `self.tcp.send(cmd)`: consumes one oracle slot; on success the sent command
is appended to the trace, on failure the exception propagates. -/
def tcpSend (o : Oracle) (c : Cmd) (s : Sess) : Except Sess Sess :=
  if o.sendOk s.k = true then
    .ok { s with k := s.k + 1, tr := s.tr ++ [Event.send c] }
  else
    .error { s with k := s.k + 1 }

/-- `self.tcp.receive()`: consumes one oracle slot; on success the received
payload is appended to the trace (the caller discards it), on failure the
exception propagates. -/
def tcpReceive (o : Oracle) (s : Sess) : Except Sess Sess :=
  if o.recvOk s.k = true then
    .ok { s with k := s.k + 1, tr := s.tr ++ [Event.recv (o.recvPayload s.k)] }
  else
    .error { s with k := s.k + 1 }

/-- `sleep(MelfaCmd.SERVO_INIT_SEC)`: no transport call, records the settle
wait in the trace. -/
def sleepSrvInit (s : Sess) : Sess :=
  { s with tr := s.tr ++ [Event.sleepServo] }

/-- `MelfaRobot.change_communication_state(activate)`: on activate, send
COM_OPEN, receive, send CNTL_ON, receive; otherwise send CNTL_OFF, receive,
send COM_CLOSE, receive. Only after all four calls is `self.com_ctrl`
assigned. -/
def change_communication_state (o : Oracle) (activate : Bool) (s : Sess) :
    Except Sess Sess :=
  bindE
    (if activate then
      bindE (tcpSend o Cmd.COM_OPEN s) fun s =>
      bindE (tcpReceive o s) fun s =>
      bindE (tcpSend o Cmd.CNTL_ON s) fun s =>
      tcpReceive o s
    else
      bindE (tcpSend o Cmd.CNTL_OFF s) fun s =>
      bindE (tcpReceive o s) fun s =>
      bindE (tcpSend o Cmd.COM_CLOSE s) fun s =>
      tcpReceive o s)
    fun s => .ok { s with st := { s.st with com_ctrl := activate } }

/-- `MelfaRobot.change_servo_state(activate)`: send SRV_ON or SRV_OFF, one
receive, then `sleep(MelfaCmd.SERVO_INIT_SEC)`, then assign `self.servo`. -/
def change_servo_state (o : Oracle) (activate : Bool) (s : Sess) :
    Except Sess Sess :=
  bindE
    (if activate then
      bindE (tcpSend o Cmd.SRV_ON s) fun s =>
      tcpReceive o s
    else
      bindE (tcpSend o Cmd.SRV_OFF s) fun s =>
      tcpReceive o s)
    fun s => .ok { (sleepSrvInit s) with st := { (sleepSrvInit s).st with servo := activate } }

/-- `MelfaRobot.go_safe_pos()`: the body is `pass` — no transport call, no
field change. -/
def go_safe_pos (s : Sess) : Except Sess Sess :=
  .ok s

/-- `MelfaRobot.start(safe_return)`: communication and control on, servos on,
then (if requested) the safe-position step. -/
def start (o : Oracle) (safe_return : Bool) (s : Sess) : Except Sess Sess :=
  bindE (change_communication_state o true s) fun s =>
  bindE (change_servo_state o true s) fun s =>
  if safe_return then go_safe_pos s else .ok s

/-- `MelfaRobot.shutdown(safe_return)`: (if requested) the safe-position step,
then servos off, then communication and control off. -/
def shutdown (o : Oracle) (safe_return : Bool) (s : Sess) : Except Sess Sess :=
  bindE (if safe_return then go_safe_pos s else .ok s) fun s =>
  bindE (change_servo_state o false s) fun s =>
  change_communication_state o false s

/-- `MelfaRobot.maintenance()`: communication and control on only. -/
def maintenance (o : Oracle) (s : Sess) : Except Sess Sess :=
  change_communication_state o true s

/-- A public operation of the session, for reasoning about call sequences. -/
inductive Op
  | start (safe_return : Bool)
  | shutdown (safe_return : Bool)
  | maintenance
  | comState (activate : Bool)
  | servoState (activate : Bool)
deriving DecidableEq

/-- Dispatch one operation. -/
def runOp (o : Oracle) (op : Op) (s : Sess) : Except Sess Sess :=
  match op with
  | .start b => start o b s
  | .shutdown b => shutdown o b s
  | .maintenance => maintenance o s
  | .comState b => change_communication_state o b s
  | .servoState b => change_servo_state o b s

/-- Run a sequence of operations; an exception aborts the sequence. -/
def runOps (o : Oracle) (ops : List Op) (s : Sess) : Except Sess Sess :=
  match ops with
  | [] => .ok s
  | op :: rest => bindE (runOp o op s) (runOps o rest)

/-- The session after a call, whether it returned or raised (in Python the
object keeps its fields either way). -/
def finalSess : Except Sess Sess → Sess
  | .ok s => s
  | .error e => e

/-- The commands sent in a trace, in order. -/
def sends (tr : List Event) : List Cmd :=
  tr.filterMap fun e =>
    match e with
    | .send c => some c
    | _ => none

/-- Two run results agree on robot fields and call counter (traces may differ,
e.g. in received payloads). -/
def coreEq : Except Sess Sess → Except Sess Sess → Prop
  | .ok a, .ok b => a.st = b.st ∧ a.k = b.k
  | .error a, .error b => a.st = b.st ∧ a.k = b.k
  | _, _ => False

/-- Modelled from the spec: `validate_id` lives in `src.clients.ComClient`,
which is not part of this repository slice (only its test is); the spec defines
it as the pure function `validate_id(x) = 0 ≤ x ≤ 65535`. -/
def validate_id (x : Int) : Bool :=
  decide (0 ≤ x ∧ x ≤ 65535)

/-- An oracle on which every transport call succeeds and every receive returns
the empty payload. -/
def okOracle : Oracle :=
  { sendOk := fun _ => true, recvOk := fun _ => true, recvPayload := fun _ => [] }

/-- Like `okOracle` but every receive returns the payload `[7]`. -/
def okOracle7 : Oracle :=
  { sendOk := fun _ => true, recvOk := fun _ => true, recvPayload := fun _ => [7] }

/-- An oracle whose fifth transport call (index 4: the SRV_ON send inside
`start`) fails; every other call succeeds. -/
def oracleFail4 : Oracle :=
  { sendOk := fun k => decide (k ≠ 4), recvOk := fun _ => true,
    recvPayload := fun _ => [] }

/-- An oracle whose first transport call fails; every other call succeeds. -/
def oracleFail0 : Oracle :=
  { sendOk := fun k => decide (k ≠ 0), recvOk := fun _ => true,
    recvPayload := fun _ => [] }

/-- A fresh six-axis session, exactly the fields `__init__` stores, with the
call counter at 0 and an empty trace. -/
def fresh6 : Sess :=
  { st := { joints := jointsFor 6, servo := false, com_ctrl := false },
    k := 0, tr := [] }

/-- A session identical to `fresh6` except that the servo flag is already on
(reachable, e.g., by a completed `start` and a fresh counter/trace view). -/
def sessServoOn : Sess :=
  { st := { joints := jointsFor 6, servo := true, com_ctrl := false },
    k := 0, tr := [] }

lemma bindE_ok (s : Sess) (f : Sess → Except Sess Sess) : bindE (.ok s) f = f s := rfl

lemma bindE_error (e : Sess) (f : Sess → Except Sess Sess) :
    bindE (.error e) f = .error e := rfl

lemma tcpSend_ok (o : Oracle) (c : Cmd) (s : Sess) (h : o.sendOk s.k = true) :
    tcpSend o c s = .ok { s with k := s.k + 1, tr := s.tr ++ [Event.send c] } := by
  simp [tcpSend, h]

lemma tcpSend_fail (o : Oracle) (c : Cmd) (s : Sess) (h : o.sendOk s.k = false) :
    tcpSend o c s = .error { s with k := s.k + 1 } := by
  simp [tcpSend, h]

lemma tcpReceive_ok (o : Oracle) (s : Sess) (h : o.recvOk s.k = true) :
    tcpReceive o s =
      .ok { s with k := s.k + 1, tr := s.tr ++ [Event.recv (o.recvPayload s.k)] } := by
  simp [tcpReceive, h]

lemma tcpReceive_fail (o : Oracle) (s : Sess) (h : o.recvOk s.k = false) :
    tcpReceive o s = .error { s with k := s.k + 1 } := by
  simp [tcpReceive, h]

lemma ccs_true_ok (o : Oracle) (s : Sess)
    (h0 : o.sendOk s.k = true) (h1 : o.recvOk (s.k + 1) = true)
    (h2 : o.sendOk (s.k + 2) = true) (h3 : o.recvOk (s.k + 3) = true) :
    change_communication_state o true s =
      .ok { st := { s.st with com_ctrl := true }, k := s.k + 4,
            tr := s.tr ++ [Event.send Cmd.COM_OPEN, Event.recv (o.recvPayload (s.k + 1)),
                           Event.send Cmd.CNTL_ON, Event.recv (o.recvPayload (s.k + 3))] } := by
  simp [change_communication_state, tcpSend, tcpReceive, bindE, h0, h1, h2, h3,
    List.append_assoc]

lemma ccs_false_ok (o : Oracle) (s : Sess)
    (h0 : o.sendOk s.k = true) (h1 : o.recvOk (s.k + 1) = true)
    (h2 : o.sendOk (s.k + 2) = true) (h3 : o.recvOk (s.k + 3) = true) :
    change_communication_state o false s =
      .ok { st := { s.st with com_ctrl := false }, k := s.k + 4,
            tr := s.tr ++ [Event.send Cmd.CNTL_OFF, Event.recv (o.recvPayload (s.k + 1)),
                           Event.send Cmd.COM_CLOSE, Event.recv (o.recvPayload (s.k + 3))] } := by
  simp [change_communication_state, tcpSend, tcpReceive, bindE, h0, h1, h2, h3,
    List.append_assoc]

lemma css_ok (o : Oracle) (b : Bool) (s : Sess)
    (h0 : o.sendOk s.k = true) (h1 : o.recvOk (s.k + 1) = true) :
    change_servo_state o b s =
      .ok { st := { s.st with servo := b }, k := s.k + 2,
            tr := s.tr ++ [Event.send (if b then Cmd.SRV_ON else Cmd.SRV_OFF),
                           Event.recv (o.recvPayload (s.k + 1)), Event.sleepServo] } := by
  cases b <;>
    simp [change_servo_state, tcpSend, tcpReceive, sleepSrvInit, bindE, h0, h1,
      List.append_assoc]

lemma start_ok (o : Oracle) (b : Bool) (s : Sess)
    (h0 : o.sendOk s.k = true) (h1 : o.recvOk (s.k + 1) = true)
    (h2 : o.sendOk (s.k + 2) = true) (h3 : o.recvOk (s.k + 3) = true)
    (h4 : o.sendOk (s.k + 4) = true) (h5 : o.recvOk (s.k + 5) = true) :
    start o b s =
      .ok { st := { s.st with servo := true, com_ctrl := true }, k := s.k + 6,
            tr := s.tr ++ [Event.send Cmd.COM_OPEN, Event.recv (o.recvPayload (s.k + 1)),
                           Event.send Cmd.CNTL_ON, Event.recv (o.recvPayload (s.k + 3)),
                           Event.send Cmd.SRV_ON, Event.recv (o.recvPayload (s.k + 5)),
                           Event.sleepServo] } := by
  cases b <;>
    simp [start, go_safe_pos, change_communication_state, change_servo_state,
      tcpSend, tcpReceive, sleepSrvInit, bindE, h0, h1, h2, h3, h4, h5,
      List.append_assoc]

lemma shutdown_all_ok (o : Oracle) (b : Bool) (s : Sess)
    (h0 : o.sendOk s.k = true) (h1 : o.recvOk (s.k + 1) = true)
    (h2 : o.sendOk (s.k + 2) = true) (h3 : o.recvOk (s.k + 3) = true)
    (h4 : o.sendOk (s.k + 4) = true) (h5 : o.recvOk (s.k + 5) = true) :
    shutdown o b s =
      .ok { st := { s.st with servo := false, com_ctrl := false }, k := s.k + 6,
            tr := s.tr ++ [Event.send Cmd.SRV_OFF, Event.recv (o.recvPayload (s.k + 1)),
                           Event.sleepServo,
                           Event.send Cmd.CNTL_OFF, Event.recv (o.recvPayload (s.k + 3)),
                           Event.send Cmd.COM_CLOSE, Event.recv (o.recvPayload (s.k + 5))] } := by
  cases b <;>
    simp [shutdown, go_safe_pos, change_communication_state, change_servo_state,
      tcpSend, tcpReceive, sleepSrvInit, bindE, h0, h1, h2, h3, h4, h5,
      List.append_assoc]

lemma maintenance_ok (o : Oracle) (s : Sess)
    (h0 : o.sendOk s.k = true) (h1 : o.recvOk (s.k + 1) = true)
    (h2 : o.sendOk (s.k + 2) = true) (h3 : o.recvOk (s.k + 3) = true) :
    maintenance o s =
      .ok { st := { s.st with com_ctrl := true }, k := s.k + 4,
            tr := s.tr ++ [Event.send Cmd.COM_OPEN, Event.recv (o.recvPayload (s.k + 1)),
                           Event.send Cmd.CNTL_ON, Event.recv (o.recvPayload (s.k + 3))] } := by
  simpa [maintenance] using ccs_true_ok o s h0 h1 h2 h3

lemma shutdown_servo_send_fail (o : Oracle) (s : Sess) (h : o.sendOk s.k = false) :
    shutdown o true s = .error { s with k := s.k + 1 } := by
  simp [shutdown, go_safe_pos, change_servo_state, tcpSend, bindE, h]



lemma jointsOf_bindE (r : Except Sess Sess) (f : Sess → Except Sess Sess)
    (hf : ∀ t, (finalSess (f t)).st.joints = t.st.joints) :
    (finalSess (bindE r f)).st.joints = (finalSess r).st.joints := by
  cases r with
  | ok s => simpa [bindE, finalSess] using hf s
  | error e => simp [bindE, finalSess]

lemma jointsOf_tcpSend (o : Oracle) (c : Cmd) (s : Sess) :
    (finalSess (tcpSend o c s)).st.joints = s.st.joints := by
  by_cases h : o.sendOk s.k = true <;> simp [tcpSend, h, finalSess]

lemma jointsOf_tcpReceive (o : Oracle) (s : Sess) :
    (finalSess (tcpReceive o s)).st.joints = s.st.joints := by
  by_cases h : o.recvOk s.k = true <;> simp [tcpReceive, h, finalSess]

lemma jointsOf_ccs (o : Oracle) (b : Bool) (s : Sess) :
    (finalSess (change_communication_state o b s)).st.joints = s.st.joints := by
  cases b <;>
  by_cases h0 : o.sendOk s.k = true <;>
  by_cases h1 : o.recvOk (s.k + 1) = true <;>
  by_cases h2 : o.sendOk (s.k + 2) = true <;>
  by_cases h3 : o.recvOk (s.k + 3) = true <;>
  simp [change_communication_state, tcpSend, tcpReceive, bindE, finalSess,
    h0, h1, h2, h3]

lemma jointsOf_css (o : Oracle) (b : Bool) (s : Sess) :
    (finalSess (change_servo_state o b s)).st.joints = s.st.joints := by
  cases b <;>
  by_cases h0 : o.sendOk s.k = true <;>
  by_cases h1 : o.recvOk (s.k + 1) = true <;>
  simp [change_servo_state, tcpSend, tcpReceive, sleepSrvInit, bindE, finalSess,
    h0, h1]

lemma jointsOf_safe_step (b : Bool) (s : Sess) :
    (finalSess (if b then go_safe_pos s else .ok s)).st.joints = s.st.joints := by
  cases b <;> simp [go_safe_pos, finalSess]

lemma jointsOf_start (o : Oracle) (b : Bool) (s : Sess) :
    (finalSess (start o b s)).st.joints = s.st.joints := by
  unfold start
  rw [jointsOf_bindE]
  · exact jointsOf_ccs ..
  · intro t
    rw [jointsOf_bindE]
    · exact jointsOf_css ..
    · intro u
      exact jointsOf_safe_step ..

lemma jointsOf_shutdown (o : Oracle) (b : Bool) (s : Sess) :
    (finalSess (shutdown o b s)).st.joints = s.st.joints := by
  unfold shutdown
  rw [jointsOf_bindE]
  · exact jointsOf_safe_step ..
  · intro t
    rw [jointsOf_bindE]
    · exact jointsOf_css ..
    · intro u
      exact jointsOf_ccs ..

lemma jointsOf_maintenance (o : Oracle) (s : Sess) :
    (finalSess (maintenance o s)).st.joints = s.st.joints := by
  unfold maintenance
  exact jointsOf_ccs ..

lemma coreEq_bindE (r₁ r₂ : Except Sess Sess) (f₁ f₂ : Sess → Except Sess Sess)
    (h : coreEq r₁ r₂)
    (hf : ∀ t₁ t₂ : Sess, t₁.st = t₂.st → t₁.k = t₂.k → coreEq (f₁ t₁) (f₂ t₂)) :
    coreEq (bindE r₁ f₁) (bindE r₂ f₂) := by
  cases r₁ with
  | ok a =>
    cases r₂ with
    | ok b => exact hf a b h.1 h.2
    | error e => exact h.elim
  | error a =>
    cases r₂ with
    | ok b => exact h.elim
    | error e => exact h

lemma coreEq_ccs (o₁ o₂ : Oracle) (hs : ∀ n, o₁.sendOk n = o₂.sendOk n)
    (hr : ∀ n, o₁.recvOk n = o₂.recvOk n) (b : Bool) (s₁ s₂ : Sess)
    (hst : s₁.st = s₂.st) (hk : s₁.k = s₂.k) :
    coreEq (change_communication_state o₁ b s₁) (change_communication_state o₂ b s₂) := by
  obtain ⟨f₁, g₁, p₁⟩ := o₁
  obtain ⟨f₂, g₂, p₂⟩ := o₂
  have hsf : f₁ = f₂ := funext hs
  have hrf : g₁ = g₂ := funext hr
  subst hsf
  subst hrf
  obtain ⟨st₁, k₁, tr₁⟩ := s₁
  obtain ⟨st₂, k₂, tr₂⟩ := s₂
  dsimp only at hst hk
  subst hst
  subst hk
  cases b <;>
  by_cases h0 : f₁ k₁ = true <;>
  by_cases h1 : g₁ (k₁ + 1) = true <;>
  by_cases h2 : f₁ (k₁ + 2) = true <;>
  by_cases h3 : g₁ (k₁ + 3) = true <;>
  simp [change_communication_state, tcpSend, tcpReceive, bindE, coreEq,
    h0, h1, h2, h3]

lemma coreEq_css (o₁ o₂ : Oracle) (hs : ∀ n, o₁.sendOk n = o₂.sendOk n)
    (hr : ∀ n, o₁.recvOk n = o₂.recvOk n) (b : Bool) (s₁ s₂ : Sess)
    (hst : s₁.st = s₂.st) (hk : s₁.k = s₂.k) :
    coreEq (change_servo_state o₁ b s₁) (change_servo_state o₂ b s₂) := by
  obtain ⟨f₁, g₁, p₁⟩ := o₁
  obtain ⟨f₂, g₂, p₂⟩ := o₂
  have hsf : f₁ = f₂ := funext hs
  have hrf : g₁ = g₂ := funext hr
  subst hsf
  subst hrf
  obtain ⟨st₁, k₁, tr₁⟩ := s₁
  obtain ⟨st₂, k₂, tr₂⟩ := s₂
  dsimp only at hst hk
  subst hst
  subst hk
  cases b <;>
  by_cases h0 : f₁ k₁ = true <;>
  by_cases h1 : g₁ (k₁ + 1) = true <;>
  simp [change_servo_state, tcpSend, tcpReceive, sleepSrvInit, bindE, coreEq,
    h0, h1]

lemma coreEq_safe_step (b : Bool) (s₁ s₂ : Sess)
    (hst : s₁.st = s₂.st) (hk : s₁.k = s₂.k) :
    coreEq (if b then go_safe_pos s₁ else .ok s₁) (if b then go_safe_pos s₂ else .ok s₂) := by
  cases b <;> simp [go_safe_pos, coreEq, hst, hk]

lemma coreEq_start (o₁ o₂ : Oracle) (hs : ∀ n, o₁.sendOk n = o₂.sendOk n)
    (hr : ∀ n, o₁.recvOk n = o₂.recvOk n) (b : Bool) (s₁ s₂ : Sess)
    (hst : s₁.st = s₂.st) (hk : s₁.k = s₂.k) :
    coreEq (start o₁ b s₁) (start o₂ b s₂) := by
  unfold start
  apply coreEq_bindE _ _ _ _ (coreEq_ccs o₁ o₂ hs hr true s₁ s₂ hst hk)
  intro t₁ t₂ h1 h2
  apply coreEq_bindE _ _ _ _ (coreEq_css o₁ o₂ hs hr true t₁ t₂ h1 h2)
  intro u₁ u₂ e1 e2
  exact coreEq_safe_step b u₁ u₂ e1 e2

lemma coreEq_shutdown (o₁ o₂ : Oracle) (hs : ∀ n, o₁.sendOk n = o₂.sendOk n)
    (hr : ∀ n, o₁.recvOk n = o₂.recvOk n) (b : Bool) (s₁ s₂ : Sess)
    (hst : s₁.st = s₂.st) (hk : s₁.k = s₂.k) :
    coreEq (shutdown o₁ b s₁) (shutdown o₂ b s₂) := by
  unfold shutdown
  apply coreEq_bindE _ _ _ _ (coreEq_safe_step b s₁ s₂ hst hk)
  intro t₁ t₂ h1 h2
  apply coreEq_bindE _ _ _ _ (coreEq_css o₁ o₂ hs hr false t₁ t₂ h1 h2)
  intro u₁ u₂ e1 e2
  exact coreEq_ccs o₁ o₂ hs hr false u₁ u₂ e1 e2

lemma coreEq_runOp (o₁ o₂ : Oracle) (hs : ∀ n, o₁.sendOk n = o₂.sendOk n)
    (hr : ∀ n, o₁.recvOk n = o₂.recvOk n) (op : Op) (s₁ s₂ : Sess)
    (hst : s₁.st = s₂.st) (hk : s₁.k = s₂.k) :
    coreEq (runOp o₁ op s₁) (runOp o₂ op s₂) := by
  cases op with
  | start b => exact coreEq_start o₁ o₂ hs hr b s₁ s₂ hst hk
  | shutdown b => exact coreEq_shutdown o₁ o₂ hs hr b s₁ s₂ hst hk
  | maintenance => exact coreEq_ccs o₁ o₂ hs hr true s₁ s₂ hst hk
  | comState b => exact coreEq_ccs o₁ o₂ hs hr b s₁ s₂ hst hk
  | servoState b => exact coreEq_css o₁ o₂ hs hr b s₁ s₂ hst hk

lemma coreEq_runOps (o₁ o₂ : Oracle) (hs : ∀ n, o₁.sendOk n = o₂.sendOk n)
    (hr : ∀ n, o₁.recvOk n = o₂.recvOk n) (ops : List Op) :
    ∀ s₁ s₂ : Sess, s₁.st = s₂.st → s₁.k = s₂.k →
      coreEq (runOps o₁ ops s₁) (runOps o₂ ops s₂) := by
  induction ops with
  | nil =>
    intro s₁ s₂ hst hk
    exact ⟨hst, hk⟩
  | cons op rest ih =>
    intro s₁ s₂ hst hk
    simp only [runOps]
    exact coreEq_bindE _ _ _ _ (coreEq_runOp o₁ o₂ hs hr op s₁ s₂ hst hk) ih

lemma coreEq_finalSess (r₁ r₂ : Except Sess Sess) (h : coreEq r₁ r₂) :
    (finalSess r₁).st = (finalSess r₂).st := by
  cases r₁ with
  | ok a =>
    cases r₂ with
    | ok b => exact h.1
    | error e => exact h.elim
  | error a =>
    cases r₂ with
    | ok b => exact h.elim
    | error e => exact h.1

/-- C1 (counterexample). The claim states that `start(safe_return=true)` on a
fresh session with an all-succeeding transport ends `atSafePosition=true` and
that the transport observes a safe-position move after the servo-on command.
In the code `go_safe_pos` has body `pass`: concretely, the run sends exactly
the three commands COM_OPEN, CNTL_ON, SRV_ON, the trace ends with the servo
settle wait, and no further command — in particular no safe-position move — is
ever observed, and no at-safe-position field exists to become true. -/
theorem C1_counterexample :
    start okOracle true fresh6 = .ok (finalSess (start okOracle true fresh6)) ∧
    (finalSess (start okOracle true fresh6)).st.com_ctrl = true ∧
    (finalSess (start okOracle true fresh6)).st.servo = true ∧
    sends (finalSess (start okOracle true fresh6)).tr =
      [Cmd.COM_OPEN, Cmd.CNTL_ON, Cmd.SRV_ON] ∧
    (finalSess (start okOracle true fresh6)).tr.getLast? = some Event.sleepServo :=
  ⟨rfl, rfl, rfl, rfl, rfl⟩

/-- C1 (amended): on a fresh session with every transport call succeeding,
`start(safe_return=true)` terminates normally with `communicationActive=true`
and `servoActive=true`, and the transport observes the open-communication and
acquire-control commands, then the servo-on command, in that order; the
safe-position step runs last but is an unimplemented no-op (`pass`), so it
contributes no transport event and there is no at-safe-position flag. -/
theorem C1_start_fresh (o : Oracle)
    (hs : ∀ n, o.sendOk n = true) (hr : ∀ n, o.recvOk n = true) :
    ∃ st₀ : RobotState, MelfaRobot.init ⟨true, true⟩ 6 = .ok st₀ ∧
      st₀.servo = false ∧ st₀.com_ctrl = false ∧
      start o true ⟨st₀, 0, []⟩ =
        .ok { st := { st₀ with servo := true, com_ctrl := true }, k := 6,
              tr := [Event.send Cmd.COM_OPEN, Event.recv (o.recvPayload 1),
                     Event.send Cmd.CNTL_ON, Event.recv (o.recvPayload 3),
                     Event.send Cmd.SRV_ON, Event.recv (o.recvPayload 5),
                     Event.sleepServo] } := by
  refine ⟨{ joints := jointsFor 6, servo := false, com_ctrl := false },
    rfl, rfl, rfl, ?_⟩
  exact start_ok o true ⟨_, 0, []⟩ (hs 0) (hr 1) (hs 2) (hr 3) (hs 4) (hr 5)

/-- C1 (witness): the amended start theorem at the concrete all-succeeding
oracle. -/
theorem C1_start_fresh_witness :
    ∃ st₀ : RobotState, MelfaRobot.init ⟨true, true⟩ 6 = .ok st₀ ∧
      st₀.servo = false ∧ st₀.com_ctrl = false ∧
      start okOracle true ⟨st₀, 0, []⟩ =
        .ok { st := { st₀ with servo := true, com_ctrl := true }, k := 6,
              tr := [Event.send Cmd.COM_OPEN, Event.recv (okOracle.recvPayload 1),
                     Event.send Cmd.CNTL_ON, Event.recv (okOracle.recvPayload 3),
                     Event.send Cmd.SRV_ON, Event.recv (okOracle.recvPayload 5),
                     Event.sleepServo] } :=
  C1_start_fresh okOracle (fun _ => rfl) (fun _ => rfl)

/-- C2 (counterexample). The claim quantifies over every session and asserts
that after a `start` aborted at the servo-on step `servoActive` is false.  On
a session whose servo flag is already true (its `k`/trace viewed afresh), the
fifth transport call (the SRV_ON send) failing leaves `servo = true`: the
assignment `self.servo = activate` is never reached, so the flag keeps its
prior value rather than being false. -/
theorem C2_counterexample :
    start oracleFail4 true sessServoOn =
      .error (finalSess (start oracleFail4 true sessServoOn)) ∧
    (finalSess (start oracleFail4 true sessServoOn)).st.com_ctrl = true ∧
    (finalSess (start oracleFail4 true sessServoOn)).st.servo = true :=
  ⟨rfl, rfl, rfl⟩

/-- C2 (amended): for every session, if during `start` the servo-on step's
send or receive fails (after the four communication/control calls succeeded),
the error propagates (`Except.error`), `communicationActive` is true (its step
completed), `servoActive` keeps its prior value (hence false on a fresh
session), the joint set is unchanged, the settle wait is never reached, and
the only commands sent during the aborted call are COM_OPEN, CNTL_ON and
possibly SRV_ON — in particular no safe-position move. -/
theorem C2_start_servo_step_failure (o : Oracle) (s : Sess)
    (h0 : o.sendOk s.k = true) (h1 : o.recvOk (s.k + 1) = true)
    (h2 : o.sendOk (s.k + 2) = true) (h3 : o.recvOk (s.k + 3) = true)
    (hfail : o.sendOk (s.k + 4) = false ∨ o.recvOk (s.k + 5) = false) :
    ∃ e : Sess, start o true s = .error e ∧ e.st.com_ctrl = true ∧
      e.st.servo = s.st.servo ∧ e.st.joints = s.st.joints ∧
      Event.sleepServo ∉ List.drop s.tr.length e.tr ∧
      (∀ c : Cmd, Event.send c ∈ List.drop s.tr.length e.tr →
        c = Cmd.COM_OPEN ∨ c = Cmd.CNTL_ON ∨ c = Cmd.SRV_ON) := by
  have case_send_fail : o.sendOk (s.k + 4) = false →
      ∃ e : Sess, start o true s = .error e ∧ e.st.com_ctrl = true ∧
        e.st.servo = s.st.servo ∧ e.st.joints = s.st.joints ∧
        Event.sleepServo ∉ List.drop s.tr.length e.tr ∧
        (∀ c : Cmd, Event.send c ∈ List.drop s.tr.length e.tr →
          c = Cmd.COM_OPEN ∨ c = Cmd.CNTL_ON ∨ c = Cmd.SRV_ON) := by
    intro h4
    refine ⟨{ st := { s.st with com_ctrl := true }, k := s.k + 5,
              tr := s.tr ++ [Event.send Cmd.COM_OPEN, Event.recv (o.recvPayload (s.k + 1)),
                             Event.send Cmd.CNTL_ON, Event.recv (o.recvPayload (s.k + 3))] },
      ?_, rfl, rfl, rfl, ?_, ?_⟩
    · simp [start, change_communication_state, change_servo_state, tcpSend, tcpReceive,
        bindE, h0, h1, h2, h3, h4, List.append_assoc]
    · simp [List.drop_left]
    · intro c hc
      simp [List.drop_left] at hc
      rcases hc with h | h <;> simp [h]
  rcases hfail with h4 | h5
  · exact case_send_fail h4
  · by_cases h4 : o.sendOk (s.k + 4) = true
    · refine ⟨{ st := { s.st with com_ctrl := true }, k := s.k + 6,
                tr := s.tr ++ [Event.send Cmd.COM_OPEN, Event.recv (o.recvPayload (s.k + 1)),
                               Event.send Cmd.CNTL_ON, Event.recv (o.recvPayload (s.k + 3)),
                               Event.send Cmd.SRV_ON] },
        ?_, rfl, rfl, rfl, ?_, ?_⟩
      · simp [start, change_communication_state, change_servo_state, tcpSend, tcpReceive,
          bindE, h0, h1, h2, h3, h4, h5, List.append_assoc]
      · simp [List.drop_left]
      · intro c hc
        simp [List.drop_left] at hc
        rcases hc with h | h | h <;> simp [h]
    · exact case_send_fail (by simpa using h4)

/-- C2 (witness): the amended theorem at the oracle whose fifth call fails and
the fresh six-axis session. -/
theorem C2_start_servo_step_failure_witness :
    ∃ e : Sess, start oracleFail4 true fresh6 = .error e ∧ e.st.com_ctrl = true ∧
      e.st.servo = fresh6.st.servo ∧ e.st.joints = fresh6.st.joints ∧
      Event.sleepServo ∉ List.drop fresh6.tr.length e.tr ∧
      (∀ c : Cmd, Event.send c ∈ List.drop fresh6.tr.length e.tr →
        c = Cmd.COM_OPEN ∨ c = Cmd.CNTL_ON ∨ c = Cmd.SRV_ON) :=
  C2_start_servo_step_failure oracleFail4 fresh6 rfl rfl rfl rfl (Or.inl rfl)

/-- C3: `shutdown(safe_return=true)` sequences the safe-position step first
(an unimplemented no-op contributing nothing), then servo-off, then release
control and close communication: with all six transport calls succeeding, the
observed command order is SRV_OFF (with its receive and settle wait), then
CNTL_OFF, then COM_CLOSE.  If the servo-off send fails, the call raises with
the session unchanged except for the call counter: `servo` keeps its prior
value (it is not cleared), `com_ctrl` keeps its prior value, and the trace is
unchanged, so no release-control or close-communication command is sent. -/
theorem C3_shutdown_order_and_failure (o : Oracle) (s : Sess) :
    (o.sendOk s.k = true → o.recvOk (s.k + 1) = true → o.sendOk (s.k + 2) = true →
      o.recvOk (s.k + 3) = true → o.sendOk (s.k + 4) = true → o.recvOk (s.k + 5) = true →
      shutdown o true s =
        .ok { st := { s.st with servo := false, com_ctrl := false }, k := s.k + 6,
              tr := s.tr ++ [Event.send Cmd.SRV_OFF, Event.recv (o.recvPayload (s.k + 1)),
                             Event.sleepServo,
                             Event.send Cmd.CNTL_OFF, Event.recv (o.recvPayload (s.k + 3)),
                             Event.send Cmd.COM_CLOSE, Event.recv (o.recvPayload (s.k + 5))] }) ∧
    (o.sendOk s.k = false →
      shutdown o true s = .error { s with k := s.k + 1 }) :=
  ⟨fun h0 h1 h2 h3 h4 h5 => shutdown_all_ok o true s h0 h1 h2 h3 h4 h5,
   fun h => shutdown_servo_send_fail o s h⟩

/-- C3 (witness): the successful ordering at the all-succeeding oracle and the
servo-off-send failure at an oracle whose first call fails. -/
theorem C3_shutdown_order_and_failure_witness :
    shutdown okOracle true fresh6 =
      .ok { st := { fresh6.st with servo := false, com_ctrl := false }, k := 6,
            tr := [Event.send Cmd.SRV_OFF, Event.recv [], Event.sleepServo,
                   Event.send Cmd.CNTL_OFF, Event.recv [],
                   Event.send Cmd.COM_CLOSE, Event.recv []] } ∧
    shutdown oracleFail0 true fresh6 = .error { fresh6 with k := 1 } :=
  ⟨(C3_shutdown_order_and_failure okOracle fresh6).1 rfl rfl rfl rfl rfl rfl,
   (C3_shutdown_order_and_failure oracleFail0 fresh6).2 rfl⟩

/-- C4: `change_servo_state(b)` sends the servo-on or servo-off command,
performs exactly one receive, then records the settle wait — the single
`sleep(MelfaCmd.SERVO_INIT_SEC)` call site, the same fixed constant for enable
and disable — before setting the servo flag to `b`.  The theorem holds for
every session, including one whose servo flag already equals `b`: there is no
guard against redundant calls, the command is re-sent and the delay re-waited. -/
theorem C4_change_servo_state_spec (o : Oracle) (b : Bool) (s : Sess)
    (h0 : o.sendOk s.k = true) (h1 : o.recvOk (s.k + 1) = true) :
    change_servo_state o b s =
      .ok { st := { s.st with servo := b }, k := s.k + 2,
            tr := s.tr ++ [Event.send (if b then Cmd.SRV_ON else Cmd.SRV_OFF),
                           Event.recv (o.recvPayload (s.k + 1)), Event.sleepServo] } :=
  css_ok o b s h0 h1

/-- C4 (witness): a redundant enable — the session's servo flag is already
true — still re-sends SRV_ON and re-waits the settle delay. -/
theorem C4_change_servo_state_spec_witness :
    change_servo_state okOracle true sessServoOn =
      .ok { st := { sessServoOn.st with servo := true }, k := 2,
            tr := [Event.send Cmd.SRV_ON, Event.recv [], Event.sleepServo] } :=
  C4_change_servo_state_spec okOracle true sessServoOn rfl rfl

/-- C5: construction raises exactly when the transport lacks a required
capability (`hasattr` check) or the axis count is non-positive — the error is
produced by `MelfaRobot.init` itself, which performs no transport call (it
does not even take an oracle); and once construction succeeds, no session
method raises anything but transport errors: with an all-succeeding transport
every method returns normally. -/
theorem C5_construction_validation :
    (∀ (tcp_client : TcpDuck) (number_axes : Int),
      (∃ e, MelfaRobot.init tcp_client number_axes = .error e) ↔
        (tcp_client.hasSend = false ∨ tcp_client.hasReceive = false ∨ number_axes ≤ 0)) ∧
    (∀ (o : Oracle) (s : Sess), (∀ n, o.sendOk n = true) → (∀ n, o.recvOk n = true) →
      (∀ b, ∃ t, start o b s = .ok t) ∧ (∀ b, ∃ t, shutdown o b s = .ok t) ∧
      (∃ t, maintenance o s = .ok t) ∧
      (∀ b, ∃ t, change_communication_state o b s = .ok t) ∧
      (∀ b, ∃ t, change_servo_state o b s = .ok t)) := by
  constructor
  · intro tcp_client number_axes
    constructor
    · rintro ⟨e, he⟩
      by_cases hc : tcp_client.hasSend = false ∨ tcp_client.hasReceive = false
      · rcases hc with h | h
        · exact Or.inl h
        · exact Or.inr (Or.inl h)
      · by_cases hn : number_axes > 0
        · simp [MelfaRobot.init, hc, hn] at he
        · exact Or.inr (Or.inr (by omega))
    · intro h
      by_cases hc : tcp_client.hasSend = false ∨ tcp_client.hasReceive = false
      · exact ⟨.badTcpClient, by simp [MelfaRobot.init, hc]⟩
      · have hn : ¬ number_axes > 0 := by
          rcases h with h | h | h
          · exact absurd (Or.inl h) hc
          · exact absurd (Or.inr h) hc
          · omega
        exact ⟨.badAxisCount, by simp [MelfaRobot.init, hc, hn]⟩
  · intro o s hs hr
    refine ⟨fun b => ⟨_, start_ok o b s (hs _) (hr _) (hs _) (hr _) (hs _) (hr _)⟩,
      fun b => ⟨_, shutdown_all_ok o b s (hs _) (hr _) (hs _) (hr _) (hs _) (hr _)⟩,
      ⟨_, maintenance_ok o s (hs _) (hr _) (hs _) (hr _)⟩,
      fun b => ?_,
      fun b => ⟨_, css_ok o b s (hs _) (hr _)⟩⟩
    cases b
    · exact ⟨_, ccs_false_ok o s (hs _) (hr _) (hs _) (hr _)⟩
    · exact ⟨_, ccs_true_ok o s (hs _) (hr _) (hs _) (hr _)⟩

/-- C5 (witness): a transport missing `receive` is rejected at construction;
with the all-succeeding oracle, `start` on the fresh session returns normally. -/
theorem C5_construction_validation_witness :
    (∃ e, MelfaRobot.init ⟨true, false⟩ 6 = .error e) ∧
    (∃ t, start okOracle true fresh6 = .ok t) :=
  ⟨(C5_construction_validation.1 ⟨true, false⟩ 6).2 (Or.inr (Or.inl rfl)),
   (C5_construction_validation.2 okOracle fresh6 (fun _ => rfl) (fun _ => rfl)).1 true⟩

/-- C6: for axis count n ≥ 1, construction succeeds and the joint set contains
exactly the strings "J1".."Jn"; and every operation — start, shutdown,
maintenance, change_communication_state, change_servo_state — leaves the joint
set unchanged, whether it returns or raises. -/
theorem C6_jointSet_invariant :
    (∀ number_axes : Int, 1 ≤ number_axes →
      ∃ st₀ : RobotState, MelfaRobot.init ⟨true, true⟩ number_axes = .ok st₀ ∧
        ∀ str : String, str ∈ st₀.joints ↔
          ∃ i : Nat, 1 ≤ i ∧ (i : Int) ≤ number_axes ∧ str = "J" ++ toString i) ∧
    (∀ (o : Oracle) (b : Bool) (s : Sess),
      (finalSess (start o b s)).st.joints = s.st.joints ∧
      (finalSess (shutdown o b s)).st.joints = s.st.joints ∧
      (finalSess (maintenance o s)).st.joints = s.st.joints ∧
      (finalSess (change_communication_state o b s)).st.joints = s.st.joints ∧
      (finalSess (change_servo_state o b s)).st.joints = s.st.joints) := by
  constructor
  · intro number_axes hn
    have hpos : number_axes > 0 := by omega
    refine ⟨{ joints := jointsFor number_axes, servo := false, com_ctrl := false },
      by simp [MelfaRobot.init, hpos], ?_⟩
    intro str
    simp only [jointsFor, List.mem_toFinset, List.mem_map, List.mem_range]
    constructor
    · rintro ⟨a, ha, rfl⟩
      exact ⟨a + 1, by omega, by omega, rfl⟩
    · rintro ⟨i, h1, h2, rfl⟩
      exact ⟨i - 1, by omega, by rw [Nat.sub_add_cancel h1]⟩
  · intro o b s
    exact ⟨jointsOf_start o b s, jointsOf_shutdown o b s, jointsOf_maintenance o s,
      jointsOf_ccs o b s, jointsOf_css o b s⟩

/-- C6 (witness): the joint-set characterisation at axis count 2, and the
frame property of `start` at the concrete all-succeeding run. -/
theorem C6_jointSet_invariant_witness :
    (∃ st₀ : RobotState, MelfaRobot.init ⟨true, true⟩ 2 = .ok st₀ ∧
      ∀ str : String, str ∈ st₀.joints ↔
        ∃ i : Nat, 1 ≤ i ∧ (i : Int) ≤ 2 ∧ str = "J" ++ toString i) ∧
    (finalSess (start okOracle true fresh6)).st.joints = fresh6.st.joints :=
  ⟨C6_jointSet_invariant.1 2 (by decide),
   (C6_jointSet_invariant.2 okOracle true fresh6).1⟩

/-- C7: `maintenance()` performs only the communication-enable step: after a
successful call `com_ctrl` is true, the servo flag keeps its prior value, and
the only commands sent are COM_OPEN and CNTL_ON — no servo and no
safe-position command, no settle wait. -/
theorem C7_maintenance_frame (o : Oracle) (s : Sess)
    (h0 : o.sendOk s.k = true) (h1 : o.recvOk (s.k + 1) = true)
    (h2 : o.sendOk (s.k + 2) = true) (h3 : o.recvOk (s.k + 3) = true) :
    maintenance o s =
      .ok { st := { s.st with com_ctrl := true }, k := s.k + 4,
            tr := s.tr ++ [Event.send Cmd.COM_OPEN, Event.recv (o.recvPayload (s.k + 1)),
                           Event.send Cmd.CNTL_ON, Event.recv (o.recvPayload (s.k + 3))] } ∧
    (finalSess (maintenance o s)).st.servo = s.st.servo ∧
    (finalSess (maintenance o s)).st.joints = s.st.joints := by
  have h := maintenance_ok o s h0 h1 h2 h3
  exact ⟨h, by simp [h, finalSess], by simp [h, finalSess]⟩

/-- C7 (witness): maintenance on the session with the servo flag on leaves the
servo flag on and sends only the two communication commands. -/
theorem C7_maintenance_frame_witness :
    maintenance okOracle sessServoOn =
      .ok { st := { sessServoOn.st with com_ctrl := true }, k := 4,
            tr := [Event.send Cmd.COM_OPEN, Event.recv [],
                   Event.send Cmd.CNTL_ON, Event.recv []] } ∧
    (finalSess (maintenance okOracle sessServoOn)).st.servo = sessServoOn.st.servo ∧
    (finalSess (maintenance okOracle sessServoOn)).st.joints = sessServoOn.st.joints :=
  C7_maintenance_frame okOracle sessServoOn rfl rfl rfl rfl

/-- C8: `validate_id(x)` is true exactly when 0 ≤ x ≤ 65535, with the four
concrete values from the spec and the test table.  (`validate_id` lives in
`src.clients.ComClient`, outside this repository slice; the definition is
modelled from the spec.) -/
theorem C8_validate_id_spec :
    (∀ x : Int, validate_id x = true ↔ (0 ≤ x ∧ x ≤ 65535)) ∧
    validate_id 0 = true ∧ validate_id (-1) = false ∧
    validate_id 65535 = true ∧ validate_id 65536 = false := by
  refine ⟨fun x => ?_, by decide, by decide, by decide, by decide⟩
  simp [validate_id]

/-- C9: `go_safe_pos` is a no-op — its body is `pass`: it returns the session
unchanged, sends nothing, receives nothing; consequently `start` and
`shutdown` behave identically with and without the safe-return flag. -/
theorem C9_go_safe_pos_noop :
    (∀ s : Sess, go_safe_pos s = .ok s) ∧
    (∀ (o : Oracle) (s : Sess), start o true s = start o false s) ∧
    (∀ (o : Oracle) (s : Sess), shutdown o true s = shutdown o false s) := by
  refine ⟨fun s => rfl, fun o s => ?_, fun o s => ?_⟩
  · simp [start, go_safe_pos]
  · simp [shutdown, go_safe_pos]

/-- C10: the final communication and servo flags are independent of the
response payloads: two runs of the same operation sequence from sessions with
equal fields and counters, on oracles whose every call succeeds (payloads
free to differ), end with identical flags — no operation inspects a receive
result before setting its flag. -/
theorem C10_response_payload_independence (o₁ o₂ : Oracle) (ops : List Op) (s₁ s₂ : Sess)
    (hs₁ : ∀ n, o₁.sendOk n = true) (hs₂ : ∀ n, o₂.sendOk n = true)
    (hr₁ : ∀ n, o₁.recvOk n = true) (hr₂ : ∀ n, o₂.recvOk n = true)
    (hst : s₁.st = s₂.st) (hk : s₁.k = s₂.k) :
    (finalSess (runOps o₁ ops s₁)).st.com_ctrl =
      (finalSess (runOps o₂ ops s₂)).st.com_ctrl ∧
    (finalSess (runOps o₁ ops s₁)).st.servo =
      (finalSess (runOps o₂ ops s₂)).st.servo := by
  have h := coreEq_runOps o₁ o₂ (fun n => (hs₁ n).trans (hs₂ n).symm)
    (fun n => (hr₁ n).trans (hr₂ n).symm) ops s₁ s₂ hst hk
  have h2 := coreEq_finalSess _ _ h
  exact ⟨by rw [h2], by rw [h2]⟩

/-- C10 (witness): a start/shutdown sequence on the oracle answering `[]` and
on the oracle answering `[7]` ends with the same flags. -/
theorem C10_response_payload_independence_witness :
    (finalSess (runOps okOracle [Op.start true, Op.shutdown true] fresh6)).st.com_ctrl =
      (finalSess (runOps okOracle7 [Op.start true, Op.shutdown true] fresh6)).st.com_ctrl ∧
    (finalSess (runOps okOracle [Op.start true, Op.shutdown true] fresh6)).st.servo =
      (finalSess (runOps okOracle7 [Op.start true, Op.shutdown true] fresh6)).st.servo :=
  C10_response_payload_independence okOracle okOracle7 [Op.start true, Op.shutdown true]
    fresh6 fresh6 (fun _ => rfl) (fun _ => rfl) (fun _ => rfl) (fun _ => rfl) rfl rfl
